import Mathlib

/-!
Verification development for the Smartsheet column-listing script
(`Smartsheet_Column_Numbers.py`).

The script is a straight-line program: it builds a client from a
hard-coded access token, enables errors-as-exceptions, fetches one
sheet by its hard-coded identifier, prints a header line naming the
sheet, and prints one line per column in the sheet's column order.

We embed it shallowly: the remote service is an arbitrary function
from (token, sheetId) to `Except FetchError Sheet`, and a run is the
list of observable effects (the single network fetch, stdout lines,
and the error diagnostic of an uncaught exception) together with the
process exit code (0 when the script falls off its end, 1 when the
uncaught exception terminates it).
-/

/-- A column as consumed from the service response: the script reads
`col.title`, `col.id`, `col.type`. -/
structure Column where
  title : String
  id : Nat
  type : String
  deriving DecidableEq, Repr

/-- A sheet as consumed from the service response: the script reads
`sheet.name` and the ordered `sheet.columns`. -/
structure Sheet where
  name : String
  columns : List Column
  deriving DecidableEq, Repr

/-- The three failure kinds of the remote call (authorization,
not-found, transport); with `errors_as_exceptions(True)` each surfaces
as an exception that terminates the script. -/
inductive FetchError where
  | authorization
  | notFound
  | transport
  deriving DecidableEq, Repr

/-- The hard-coded access token of the script's configuration block. -/
def ACCESS_TOKEN : String := "YOUR_ACCESS_TOKEN"

/-- The hard-coded sheet identifier of the script's configuration block. -/
def SHEET_ID : Nat := 1234567890123456

/-- The header print: `print(f"Columns for sheet '{sheet.name}':")`. -/
def headerLine (sheet : Sheet) : String :=
  "Columns for sheet '" ++ sheet.name ++ "':"

/-- The per-column print:
`print(f"- {col.title} (ID: {col.id}, Type: {col.type})")`. -/
def columnLine (col : Column) : String :=
  "- " ++ col.title ++ " (ID: " ++ toString col.id ++ ", Type: " ++ col.type ++ ")"

/-- The stdout lines of a successful run: the header, then the loop
`for col in sheet.columns: print(...)` in the given column order. -/
def outputLines (sheet : Sheet) : List String :=
  headerLine sheet :: sheet.columns.map columnLine

/-- Observable effects of a run. The script can only fetch over the
network and write to the console; the write-effect constructors are
available in the model so that their absence from every trace is a
provable frame property, not a vacuity of the type. -/
inductive Effect where
  | networkFetch (sheetId : Nat)
  | stdoutLine (line : String)
  | stderrDiag (err : FetchError)
  | fileWrite (path content : String)
  | remoteMutation (sheetId : Nat)
  deriving DecidableEq, Repr

/-- Whether an effect is the read-only sheet-metadata fetch. -/
def Effect.isNetworkFetch : Effect → Bool
  | .networkFetch _ => true
  | _ => false

/-- Whether an effect writes to any store or mutates remote state. -/
def Effect.isWriteEffect : Effect → Bool
  | .fileWrite _ _ => true
  | .remoteMutation _ => true
  | _ => false

/-- Whether an effect is console output (stdout line or the stderr
diagnostic of the uncaught exception). -/
def Effect.isConsole : Effect → Bool
  | .stdoutLine _ => true
  | .stderrDiag _ => true
  | _ => false

/-- A run of the script against a remote service: exactly one call to
`Sheets.get_sheet`; on success the header and column prints follow and
the process exits 0; on failure the exception propagates, Python
prints the diagnostic and the process exits 1. Returns the effect
trace and the exit code. -/
def runTrace (token : String) (sheetId : Nat)
    (service : String → Nat → Except FetchError Sheet) :
    List Effect × Nat :=
  match service token sheetId with
  | Except.ok sheet =>
      (Effect.networkFetch sheetId :: (outputLines sheet).map Effect.stdoutLine, 0)
  | Except.error e =>
      ([Effect.networkFetch sheetId, Effect.stderrDiag e], 1)

/-- The script as shipped, with its hard-coded configuration. -/
def mainRun (service : String → Nat → Except FetchError Sheet) :
    List Effect × Nat :=
  runTrace ACCESS_TOKEN SHEET_ID service

/-- The stdout lines carried by an effect trace, in order. -/
def stdoutOf (trace : List Effect) : List String :=
  trace.filterMap fun e =>
    match e with
    | Effect.stdoutLine s => some s
    | _ => none

/-- The full stdout text of a trace: `print` terminates each of its
calls with a newline character. -/
def stdoutText (trace : List Effect) : String :=
  String.join ((stdoutOf trace).map (· ++ "\n"))

/-- The number of physical lines of a newline-terminated text: the
count of newline characters in it. -/
def physicalLineCount (text : String) : Nat :=
  text.data.countP (· = '\n')

/-- Helper: `filterMap` distributes the stdout projection over the
`map Effect.stdoutLine` part of a successful trace. -/
theorem stdoutOf_ok (sheet : Sheet) (sheetId : Nat) :
    stdoutOf (Effect.networkFetch sheetId ::
        (outputLines sheet).map Effect.stdoutLine) = outputLines sheet := by
  unfold stdoutOf
  rw [List.filterMap_cons]
  simp only [List.filterMap_map, Function.comp]
  exact List.filterMap_eq_map (fun s => s) ▸ List.map_id _

/-- Helper: on a successful fetch the trace's stdout is exactly the
script's output lines. -/
theorem stdoutOf_runTrace_ok (token : String) (sheetId : Nat)
    (service : String → Nat → Except FetchError Sheet) (sheet : Sheet)
    (h : service token sheetId = Except.ok sheet) :
    stdoutOf (runTrace token sheetId service).1 = outputLines sheet := by
  unfold runTrace
  rw [h]
  exact stdoutOf_ok sheet sheetId

/-- Helper: on a failed fetch the trace carries no stdout lines. -/
theorem stdoutOf_runTrace_err (token : String) (sheetId : Nat)
    (service : String → Nat → Except FetchError Sheet) (e : FetchError)
    (h : service token sheetId = Except.error e) :
    stdoutOf (runTrace token sheetId service).1 = [] := by
  unfold runTrace
  rw [h]
  rfl

/-- The sheet of the specification's worked example. -/
def exampleSheet : Sheet :=
  { name := "Project Plan",
    columns := [{ title := "Task Name", id := 111, type := "TEXT_NUMBER" },
                { title := "Due Date", id := 222, type := "DATE" }] }

/-- A service that answers every fetch with the example sheet. -/
def exampleService : String → Nat → Except FetchError Sheet :=
  fun _ _ => Except.ok exampleSheet

/-- A service that answers every fetch with a zero-column sheet. -/
def emptyService : String → Nat → Except FetchError Sheet :=
  fun _ _ => Except.ok { name := "Empty", columns := [] }

/-- C1: for every fetched sheet the stdout lines after the header are
exactly the column lines, one per column, in the service's column
order, with nothing reordered, duplicated or filtered out. -/
theorem C1_column_lines_exact_and_ordered (token : String) (sheetId : Nat)
    (service : String → Nat → Except FetchError Sheet) (sheet : Sheet)
    (h : service token sheetId = Except.ok sheet) :
    (stdoutOf (runTrace token sheetId service).1).drop 1
        = sheet.columns.map columnLine ∧
    ((stdoutOf (runTrace token sheetId service).1).drop 1).length
        = sheet.columns.length := by
  rw [stdoutOf_runTrace_ok token sheetId service sheet h]
  exact ⟨rfl, List.length_map _ _⟩

/-- C1 witness at the example sheet. -/
theorem C1_column_lines_exact_and_ordered_witness :
    (stdoutOf (runTrace "t" 1 exampleService).1).drop 1
        = exampleSheet.columns.map columnLine ∧
    ((stdoutOf (runTrace "t" 1 exampleService).1).drop 1).length
        = exampleSheet.columns.length :=
  C1_column_lines_exact_and_ordered "t" 1 exampleService exampleSheet rfl

/-- C2: every run is all-or-nothing: on a successful fetch the stdout
is the full header-plus-columns listing and the process exits 0; on
any fetch failure stdout is empty, the only console output is the one
error diagnostic, and the process exits nonzero. -/
theorem C2_all_or_nothing (token : String) (sheetId : Nat)
    (service : String → Nat → Except FetchError Sheet) :
    (∃ sheet, service token sheetId = Except.ok sheet ∧
        stdoutOf (runTrace token sheetId service).1 = outputLines sheet ∧
        (runTrace token sheetId service).2 = 0) ∨
    (∃ e, service token sheetId = Except.error e ∧
        stdoutOf (runTrace token sheetId service).1 = [] ∧
        (runTrace token sheetId service).1.countP Effect.isConsole = 1 ∧
        Effect.stderrDiag e ∈ (runTrace token sheetId service).1 ∧
        (runTrace token sheetId service).2 = 1) := by
  cases h : service token sheetId with
  | ok sheet =>
      refine Or.inl ⟨sheet, rfl, stdoutOf_runTrace_ok token sheetId service sheet h, ?_⟩
      unfold runTrace
      rw [h]
  | error e =>
      refine Or.inr ⟨e, rfl, stdoutOf_runTrace_err token sheetId service e h, ?_, ?_, ?_⟩
      · unfold runTrace
        rw [h]
        rfl
      · unfold runTrace
        rw [h]
        exact List.mem_cons_of_mem _ (List.mem_singleton.mpr rfl)
      · unfold runTrace
        rw [h]

/-- C3: a successful run's output format is fixed: the first line is
the header carrying the sheet's name verbatim, and every further line
has the exact form hyphen, title, ID and Type fields. -/
theorem C3_fixed_output_format (sheet : Sheet) :
    (outputLines sheet).head? =
        some ("Columns for sheet '" ++ sheet.name ++ "':") ∧
    sheet.name.data <:+: (headerLine sheet).data ∧
    (outputLines sheet).tail =
        sheet.columns.map (fun c =>
          "- " ++ c.title ++ " (ID: " ++ toString c.id ++ ", Type: " ++ c.type ++ ")") := by
  refine ⟨rfl, ?_, rfl⟩
  refine ⟨"Columns for sheet '".data, "':".data, ?_⟩
  show "Columns for sheet '".data ++ sheet.name.data ++ "':".data = _
  rw [headerLine, String.data_append, String.data_append]

/-- C4: each emitted column line reproduces the column's title,
identifier and type exactly as received, each appearing verbatim as a
contiguous substring, with no transformation applied. -/
theorem C4_column_values_verbatim (c : Column) :
    columnLine c =
        "- " ++ c.title ++ " (ID: " ++ toString c.id ++ ", Type: " ++ c.type ++ ")" ∧
    c.title.data <:+: (columnLine c).data ∧
    (toString c.id).data <:+: (columnLine c).data ∧
    (Column.type c).data <:+: (columnLine c).data := by
  refine ⟨rfl, ?_, ?_, ?_⟩
  · refine ⟨"- ".data, (" (ID: " ++ toString c.id ++ ", Type: " ++ c.type ++ ")").data, ?_⟩
    simp only [columnLine, String.data_append, List.append_assoc]
  · refine ⟨("- " ++ c.title ++ " (ID: ").data, (", Type: " ++ c.type ++ ")").data, ?_⟩
    simp only [columnLine, String.data_append, List.append_assoc]
  · refine ⟨("- " ++ c.title ++ " (ID: " ++ toString c.id ++ ", Type: ").data, (")" : String).data, ?_⟩
    simp only [columnLine, String.data_append, List.append_assoc]

/-- C5: the specification's worked example: the sheet named Project
Plan with its two columns produces exactly the three documented lines. -/
theorem C5_worked_example :
    stdoutOf (runTrace "t" 1 exampleService).1 =
      ["Columns for sheet 'Project Plan':",
       "- Task Name (ID: 111, Type: TEXT_NUMBER)",
       "- Due Date (ID: 222, Type: DATE)"] := by decide

/-- C6: a fetched sheet with zero columns yields only the header line
on stdout, and nothing else. -/
theorem C6_zero_columns_header_only (token : String) (sheetId : Nat)
    (service : String → Nat → Except FetchError Sheet) (name : String)
    (h : service token sheetId = Except.ok { name := name, columns := [] }) :
    stdoutOf (runTrace token sheetId service).1 =
        [headerLine { name := name, columns := [] }] ∧
    (stdoutOf (runTrace token sheetId service).1).length = 1 := by
  rw [stdoutOf_runTrace_ok token sheetId service _ h]
  exact ⟨rfl, rfl⟩

/-- C6 witness at a concrete zero-column sheet. -/
theorem C6_zero_columns_header_only_witness :
    stdoutOf (runTrace "t" 1 emptyService).1 =
        [headerLine { name := "Empty", columns := [] }] ∧
    (stdoutOf (runTrace "t" 1 emptyService).1).length = 1 :=
  C6_zero_columns_header_only "t" 1 emptyService "Empty" rfl

/-- Helper: stdout-line effects are never the network fetch. -/
theorem countP_fetch_map_stdout (ls : List String) :
    ((ls.map Effect.stdoutLine).countP Effect.isNetworkFetch) = 0 := by
  induction ls with
  | nil => rfl
  | cons a t ih => simp [List.countP_cons, Effect.isNetworkFetch, ih]

/-- Helper: stdout-line effects are never write effects. -/
theorem countP_write_map_stdout (ls : List String) :
    ((ls.map Effect.stdoutLine).countP Effect.isWriteEffect) = 0 := by
  induction ls with
  | nil => rfl
  | cons a t ih => simp [List.countP_cons, Effect.isWriteEffect, ih]

/-- Helper: stdout-line effects are all console effects. -/
theorem all_console_map_stdout (ls : List String) :
    ((ls.map Effect.stdoutLine).all
        fun e => e.isNetworkFetch || e.isConsole) = true := by
  induction ls with
  | nil => rfl
  | cons a t ih => simp [List.all_cons, Effect.isConsole, ih]

/-- C7: every run performs exactly one network fetch, performs no
write to any store and no remote mutation, and every other effect is
console output. -/
theorem C7_single_fetch_no_writes (token : String) (sheetId : Nat)
    (service : String → Nat → Except FetchError Sheet) :
    ((runTrace token sheetId service).1.countP Effect.isNetworkFetch) = 1 ∧
    ((runTrace token sheetId service).1.countP Effect.isWriteEffect) = 0 ∧
    ((runTrace token sheetId service).1.all
        fun e => e.isNetworkFetch || e.isConsole) = true := by
  unfold runTrace
  cases h : service token sheetId with
  | ok sheet =>
      refine ⟨?_, ?_, ?_⟩
      · simp [List.countP_cons, Effect.isNetworkFetch, countP_fetch_map_stdout]
      · simp [List.countP_cons, Effect.isWriteEffect, countP_write_map_stdout]
      · rw [List.all_cons, all_console_map_stdout (outputLines sheet)]
        rfl
  | error e =>
      exact ⟨rfl, rfl, rfl⟩

/-- C8: on a successful fetch the process runs to the end of the
script and exits with status code zero. -/
theorem C8_exit_zero_on_success (token : String) (sheetId : Nat)
    (service : String → Nat → Except FetchError Sheet) (sheet : Sheet)
    (h : service token sheetId = Except.ok sheet) :
    (runTrace token sheetId service).2 = 0 := by
  unfold runTrace
  rw [h]

/-- C8 witness at the example service. -/
theorem C8_exit_zero_on_success_witness :
    (runTrace "t" 1 exampleService).2 = 0 :=
  C8_exit_zero_on_success "t" 1 exampleService exampleSheet rfl

/-- C9: the printed text and exit status are a deterministic function
of the sheet data the service returns: two runs whose fetches return
the same result produce identical stdout and identical exit codes,
whatever their tokens and sheet identifiers. -/
theorem C9_output_depends_only_on_sheet (t₁ t₂ : String) (i₁ i₂ : Nat)
    (s₁ s₂ : String → Nat → Except FetchError Sheet)
    (h : s₁ t₁ i₁ = s₂ t₂ i₂) :
    stdoutOf (runTrace t₁ i₁ s₁).1 = stdoutOf (runTrace t₂ i₂ s₂).1 ∧
    (runTrace t₁ i₁ s₁).2 = (runTrace t₂ i₂ s₂).2 := by
  cases h₂ : s₂ t₂ i₂ with
  | ok sheet =>
      have h₁ : s₁ t₁ i₁ = Except.ok sheet := h.trans h₂
      constructor
      · rw [stdoutOf_runTrace_ok t₁ i₁ s₁ sheet h₁,
           stdoutOf_runTrace_ok t₂ i₂ s₂ sheet h₂]
      · unfold runTrace
        rw [h₁, h₂]
  | error e =>
      have h₁ : s₁ t₁ i₁ = Except.error e := h.trans h₂
      constructor
      · rw [stdoutOf_runTrace_err t₁ i₁ s₁ e h₁,
           stdoutOf_runTrace_err t₂ i₂ s₂ e h₂]
      · unfold runTrace
        rw [h₁, h₂]

/-- C9 witness: two runs with different tokens and identifiers against
the example service. -/
theorem C9_output_depends_only_on_sheet_witness :
    stdoutOf (runTrace "a" 1 exampleService).1 =
        stdoutOf (runTrace "b" 2 exampleService).1 ∧
    (runTrace "a" 1 exampleService).2 = (runTrace "b" 2 exampleService).2 :=
  C9_output_depends_only_on_sheet "a" "b" 1 2 exampleService exampleService rfl

/-- A sheet whose single column title holds a newline character. -/
def newlineSheet : Sheet :=
  { name := "S", columns := [{ title := "X\nY", id := 1, type := "T" }] }

/-- A service answering with the newline-titled sheet. -/
def newlineService : String → Nat → Except FetchError Sheet :=
  fun _ _ => Except.ok newlineSheet

/-- A column whose type field mimics the line format's delimiters. -/
def ambigColA : Column :=
  { title := "T", id := 1, type := "X (ID: 2, Type: Y" }

/-- A different column, with the delimiter text inside its title,
whose emitted line coincides with that of `ambigColA`. -/
def ambigColB : Column :=
  { title := "T (ID: 1, Type: X", id := 2, type := "Y" }

/-- C10: values are interpolated with no escaping: a title holding a
newline makes the stdout text have more physical lines than one header
plus one per column (3 instead of 2), and a title holding the
delimiter text makes the emitted line ambiguous: two distinct
(title, id, type) triples print the very same line, so the line is not
parseable back into its triple. -/
theorem C10_no_escaping_ambiguity :
    physicalLineCount (stdoutText (runTrace "t" 1 newlineService).1) = 3 ∧
    1 + newlineSheet.columns.length < 3 ∧
    (" (ID: " : String).data <:+: ambigColB.title.data ∧
    columnLine ambigColA = columnLine ambigColB ∧
    ambigColA ≠ ambigColB := by
  refine ⟨by decide, by decide, ⟨"T".data, "1, Type: X".data, by decide⟩,
    by decide, by decide⟩
